import Mathlib

/-!
Verification of the keystonemiddleware audit `_api` module
(`keystonemiddleware/audit/_api.py`): the request-to-action classifier
(`OpenStackAuditApi.get_action`), the target resolver
(`OpenStackAuditApi.get_target_resource` with `_get_service_info`,
`_build_typeURI`, `_build_target`), and the configuration loader
(`OpenStackAuditApi.__init__`).

Python strings are modelled by `String`; the handful of string operations
the source uses (`endswith`, slicing, `lower`, `rfind`, `re.split`,
`urlparse(...).netloc`) are defined below over the character list so that
they evaluate by kernel reduction.  Python dicts of strings are association
lists (`Dict`).  Fallible operations (file open, config parsing, JSON body
parsing, `ast.literal_eval` of the catalog header) are modelled by
`Option`/`Except` values describing the outcome of the external parse.
-/

set_option autoImplicit false

namespace KeystoneAudit

/-! ### Python string primitives -/

/-- Python `s.endswith(suffix)`. -/
def strEndsWith (s suffix : String) : Bool :=
  suffix.data.isSuffixOf s.data

/-- Python `s[:-n]` for `n ≤ len(s)`: drop the last `n` characters. -/
def strDropRight (s : String) (n : Nat) : String :=
  String.mk (s.data.take (s.data.length - n))

/-- Python `s.lower()` (ASCII is all the source ever feeds it). -/
def strToLower (s : String) : String :=
  String.mk (s.data.map Char.toLower)

/-- Python `path[path.rfind('/') + 1:]`: the suffix after the last `'/'`,
the whole string when it has no `'/'` (then `rfind` returns `-1`). -/
def afterLastSlash (s : String) : String :=
  String.mk ((s.data.reverse.takeWhile (fun c => c != '/')).reverse)

/-- Helper for `splitChar`: accumulates the current (reversed) segment. -/
def splitCharAux (c : Char) : List Char → List Char → List String
  | [], acc => [String.mk acc.reverse]
  | x :: xs, acc =>
      if x = c then String.mk acc.reverse :: splitCharAux c xs []
      else splitCharAux c xs (x :: acc)

/-- Python `re.split(c, s)` for a single literal character `c`
(empty segments at the ends and between doubled separators included). -/
def splitChar (s : String) (c : Char) : List String :=
  splitCharAux c s.data []

/-! ### `urlparse(...).netloc` (the only part of `urlparse` the source reads) -/

/-- Characters allowed after the first one in a URL scheme. -/
def isSchemeTailChar (c : Char) : Bool :=
  c.isAlphanum || c == '+' || c == '-' || c == '.'

/-- A non-empty scheme: a letter followed by scheme-tail characters. -/
def isValidScheme : List Char → Bool
  | [] => false
  | c :: rest => c.isAlpha && rest.all isSchemeTailChar

/-- Strip a leading `scheme:` when the prefix before the first `':'`
forms a valid scheme, as `urlsplit` does. -/
def afterScheme (cs : List Char) : List Char :=
  match cs.findIdx? (· == ':') with
  | some i => if isValidScheme (cs.take i) then cs.drop (i + 1) else cs
  | none => cs

/-- `urlparse(url).netloc`: after an optional scheme, the part between a
leading `//` and the next `/`, `?` or `#`; empty when there is no `//`. -/
def netloc (url : String) : String :=
  match afterScheme url.data with
  | '/' :: '/' :: rest =>
      String.mk (rest.takeWhile (fun c => c != '/' && c != '?' && c != '#'))
  | _ => ""

/-! ### Dicts of strings -/

/-- Python `dict` with string keys and values, as an association list. -/
abbrev Dict := List (String × String)

/-- Python `d.get(k)` / `d[k]` lookup. -/
def dictGet (d : Dict) (k : String) : Option String :=
  match d.find? (fun p => p.1 == k) with
  | some p => some p.2
  | none => none

/-- Python `k in d`. -/
def dictHas (d : Dict) (k : String) : Bool :=
  (dictGet d k).isSome

/-! ### Data model (source lines 37-46 and the request object) -/

/-- pycadf taxonomy constant `ACTION_CREATE`. -/
def ACTION_CREATE : String := "create"

/-- pycadf taxonomy constant `ACTION_UPDATE`. -/
def ACTION_UPDATE : String := "update"

/-- pycadf taxonomy constant `ACTION_DELETE`. -/
def ACTION_DELETE : String := "delete"

/-- pycadf taxonomy constant `ACTION_READ`. -/
def ACTION_READ : String := "read"

/-- pycadf taxonomy constant `ACTION_LIST`. -/
def ACTION_LIST : String := "list"

/-- pycadf taxonomy constant `UNKNOWN`. -/
def UNKNOWN : String := "unknown"

/-- The `AuditMap` namedtuple: the four configuration lookup tables. -/
structure AuditMap where
  path_kw : Dict
  custom_actions : Dict
  service_endpoints : Dict
  default_target_endpoint_type : Option String
  deriving DecidableEq, Repr

/-- The first element of a catalog entry's `endpoints` list — the only one
the source ever reads (`endp['endpoints'][0]`), with its optional fields. -/
structure EndpointUrls where
  id : Option String
  adminURL : Option String
  internalURL : Option String
  publicURL : Option String
  deriving DecidableEq, Repr

/-- One service-catalog entry: `type`, `name` and its first endpoint. -/
structure CatalogEntry where
  type : String
  name : String
  firstEndpoint : EndpointUrls
  deriving DecidableEq, Repr

/-- The incoming request, with the parse outcomes of its fallible parts:
`json` is the outcome of `req.json` restricted to what the source handles —
`some keys` is a body that parsed to a JSON object with that key order
(`some []` an empty object), `none` is the `ValueError` raised for an empty
or malformed body.  `catalogHeader` is the outcome of reading and
`ast.literal_eval`-ing `environ['HTTP_X_SERVICE_CATALOG']`: `none` is a
missing header (`KeyError`), `some none` a header whose literal fails to
parse (`literal_eval` raises), `some (some catalog)` a parsed catalog. -/
structure Request where
  method : String
  path : String
  host_url : String
  json : Option (List String)
  catalogHeader : Option (Option (List CatalogEntry))
  deriving DecidableEq, Repr

/-! ### `get_action` (source lines 104-168) -/

/-- `_clean_path` (line 104): strip a `.json` suffix. -/
def _clean_path (value : String) : String :=
  if strEndsWith value ".json" then strDropRight value 5 else value

/-- Line 131: `path = req.path[:-1] if req.path.endswith('/') else req.path`. -/
def normPath (p : String) : String :=
  if strEndsWith p "/" then strDropRight p 1 else p

/-- Line 132: `url_ending = self._clean_path(path[path.rfind('/') + 1:])`. -/
def url_ending (req : Request) : String :=
  _clean_path (afterLastSlash (normPath req.path))

/-- `get_action` (lines 109-168): custom-action lookups, then dispatch on
the method with the `action`/path-keyword POST cases. -/
def get_action (MAP : AuditMap) (req : Request) : String :=
  match dictGet MAP.custom_actions (url_ending req ++ "/" ++ strToLower req.method) with
  | some a => a
  | none =>
    match dictGet MAP.custom_actions (url_ending req) with
    | some a => a
    | none =>
      if req.method = "POST" then
        if url_ending req = "action" then
          match req.json with
          | some (k :: _) => ACTION_UPDATE ++ "/" ++ k
          | _ => ACTION_CREATE
        else if !dictHas MAP.path_kw (url_ending req) then ACTION_UPDATE
        else ACTION_CREATE
      else if req.method = "GET" then
        if dictHas MAP.path_kw (url_ending req) then ACTION_LIST
        else ACTION_READ
      else if req.method = "PUT" ∨ req.method = "PATCH" then ACTION_UPDATE
      else if req.method = "DELETE" then ACTION_DELETE
      else if req.method = "HEAD" then ACTION_READ
      else UNKNOWN

/-! ### Service info and target building (source lines 170-218) -/

/-- A pycadf `Endpoint(name=..., url=...)`. -/
structure Endpoint where
  name : String
  url : String
  deriving DecidableEq, Repr

/-- The `Service` namedtuple (line 37).  The three endpoint slots hold
`none` only in the all-unknown default (line 227); `_get_service_info`
always fills them, and the truthiness tests of `_build_target` see a
constructed pycadf `Endpoint` as truthy. -/
structure Service where
  id : String
  name : String
  type : String
  admin_endp : Option Endpoint
  public_endp : Option Endpoint
  private_endp : Option Endpoint
  deriving DecidableEq, Repr

/-- `_get_service_info` (lines 170-187). -/
def _get_service_info (MAP : AuditMap) (endp : CatalogEntry) : Service :=
  { type := (dictGet MAP.service_endpoints endp.type).getD UNKNOWN
    name := endp.name
    id := endp.firstEndpoint.id.getD endp.name
    admin_endp := some ⟨"admin", endp.firstEndpoint.adminURL.getD UNKNOWN⟩
    private_endp := some ⟨"private", endp.firstEndpoint.internalURL.getD UNKNOWN⟩
    public_endp := some ⟨"public", endp.firstEndpoint.publicURL.getD UNKNOWN⟩ }

/-- The loop body of `_build_typeURI` (lines 194-202): fold over the
`re.split('/', req.path)` segments carrying `prev_key` and the
accumulated `type_uri`. -/
def typeURIFold (MAP : AuditMap) : List String → Option String → String → String
  | [], _, acc => acc
  | key :: rest, prev_key, acc =>
      let k := _clean_path key
      let acc' :=
        if dictHas MAP.path_kw k then acc ++ "/" ++ k
        else
          match prev_key with
          | some p =>
              if dictHas MAP.path_kw p then acc ++ "/" ++ (dictGet MAP.path_kw p).getD ""
              else acc
          | none => acc
      typeURIFold MAP rest (some k) acc'

/-- `_build_typeURI` (lines 189-203). -/
def _build_typeURI (MAP : AuditMap) (req : Request) (service_type : String) : String :=
  service_type ++ typeURIFold MAP (splitChar req.path '/') none ""

/-- The `Target` resource as far as the source populates it: `typeURI`,
`id`, `name` and the addresses added by `add_address`, in call order. -/
structure Target where
  typeURI : String
  id : String
  name : String
  addresses : List Endpoint
  deriving DecidableEq, Repr

/-- `_build_target` (lines 205-218): typeURI (literal `unknown` for an
unknown service type), then addresses admin / private / public, each added
only when the slot holds an (always truthy) endpoint object. -/
def _build_target (MAP : AuditMap) (req : Request) (service : Service) : Target :=
  { typeURI :=
      if service.type ≠ UNKNOWN then _build_typeURI MAP req service.type
      else service.type
    id := service.id
    name := service.name
    addresses :=
      (match service.admin_endp with | some e => [e] | none => []) ++
      (match service.private_endp with | some e => [e] | none => []) ++
      (match service.public_endp with | some e => [e] | none => []) }

/-! ### `get_target_resource` (source lines 220-263) -/

/-- The all-unknown default `service_info` (lines 227-229). -/
def unknownService : Service :=
  { type := UNKNOWN, name := UNKNOWN, id := UNKNOWN,
    admin_endp := none, private_endp := none, public_endp := none }

/-- Line 257's guard: `self._MAP.default_target_endpoint_type and
endp['type'] == self._MAP.default_target_endpoint_type` (a configured
empty string is falsy in Python). -/
def isDefaultType (MAP : AuditMap) (e : CatalogEntry) : Bool :=
  match MAP.default_target_endpoint_type with
  | some t => t != "" && e.type == t
  | none => false

/-- Lines 247-254: the first endpoint's `adminURL` or `publicURL` netloc
(defaulting the missing URL to `''`) equals the request host's netloc. -/
def hostMatch (reqNetloc : String) (e : CatalogEntry) : Bool :=
  netloc (e.firstEndpoint.adminURL.getD "") == reqNetloc
  || netloc (e.firstEndpoint.publicURL.getD "") == reqNetloc

/-- The `for ... else` loop of lines 245-262: break with the entry's
service info on the first host match, keep overwriting `default_endpoint`
with every default-type entry, and on normal loop exit use the recorded
`default_endpoint` (the all-unknown service when there is none). -/
def findService (MAP : AuditMap) (reqNetloc : String) :
    List CatalogEntry → Option CatalogEntry → Service
  | [], none => unknownService
  | [], some d => _get_service_info MAP d
  | e :: rest, dflt =>
      if hostMatch reqNetloc e then _get_service_info MAP e
      else if isDefaultType MAP e then findService MAP reqNetloc rest (some e)
      else findService MAP reqNetloc rest dflt

/-- `get_target_resource` (lines 220-263).  The result pairs the built
target with a flag recording whether the missing-catalog warning was
logged; `Except.error ()` is the uncaught exception `ast.literal_eval`
raises on an unparseable header (only `KeyError` is caught, line 235). -/
def get_target_resource (MAP : AuditMap) (req : Request) :
    Except Unit (Target × Bool) :=
  match req.catalogHeader with
  | none => .ok (_build_target MAP req unknownService, true)
  | some none => .error ()
  | some (some catalog) =>
      .ok (_build_target MAP req
             (findService MAP (netloc req.host_url) catalog none), false)

/-! ### Configuration loading, `__init__` (source lines 57-102) -/

/-- What the config file contributes once `ConfigParser` has read it:
each optional section/option is `none` when missing (`NoOptionError` /
`configparser.Error` are swallowed, lines 69-93). -/
structure IniConf where
  target_endpoint_type : Option String
  custom_actions : Option Dict
  path_keywords : Option Dict
  service_endpoints : Option Dict
  deriving DecidableEq, Repr

/-- Outcome of `open(cfg_file)` + `map_conf.read_file` on a given path:
the file may not exist (`open` raises `IOError`), may fail to parse
(`configparser.ParsingError`), or parses to an `IniConf`. -/
inductive FileRead where
  | missing
  | malformed
  | parsed (c : IniConf)
  deriving DecidableEq, Repr

/-- How `__init__` can fail: the `IOError` from `open` propagates uncaught
(it is not a `configparser.ParsingError`, line 94), and a `ParsingError`
is re-raised as `PycadfAuditApiConfigError` (lines 94-96). -/
inductive LoadError where
  | ioError
  | configError
  deriving DecidableEq, Repr

/-- `__init__` (lines 57-102): `none` input models a falsy `cfg_file`
(no path given) — the file is never opened and all tables stay empty. -/
def auditApiInit : Option FileRead → Except LoadError AuditMap
  | none => .ok ⟨[], [], [], none⟩
  | some .missing => .error .ioError
  | some .malformed => .error .configError
  | some (.parsed c) =>
      .ok ⟨c.path_keywords.getD [], c.custom_actions.getD [],
           c.service_endpoints.getD [], c.target_endpoint_type⟩

/-- The `IniConf` an empty (but existing and well-formed) config file
yields: every section and option is absent. -/
def emptyIniConf : IniConf := ⟨none, none, none, none⟩

/-! ### Concrete configurations and requests used as test vectors -/

/-- A configuration with `servers` as a path keyword and no custom actions. -/
def mapServersKw : AuditMap := ⟨[("servers", "server")], [], [], none⟩

/-- The spec's override example: custom action `servers/post → boot`. -/
def mapBootCustom : AuditMap :=
  ⟨[("servers", "server")], [("servers/post", "boot")], [], none⟩

/-- A configuration with `x` as a path keyword. -/
def mapKwX : AuditMap := ⟨[("x", "x")], [], [], none⟩

/-! ### Spec-side description of the typeURI construction -/

/-- The spec's wording for one segment of the typeURI: `/<segment>` when
the (cleaned) segment is a path keyword, else `/<pathKeywords[previous]>`
when the previous (cleaned) segment is one, else nothing. -/
def specSegContribution (MAP : AuditMap) (prev : Option String)
    (seg : String) : String :=
  if dictHas MAP.path_kw seg then "/" ++ seg
  else
    match prev with
    | some p =>
        if dictHas MAP.path_kw p then "/" ++ (dictGet MAP.path_kw p).getD ""
        else ""
    | none => ""

/-- The spec's typeURI suffix: the concatenation, in path order, of the
per-segment contributions of the `/`-split path segments. -/
def specTypeURISuffix (MAP : AuditMap) (prev : Option String) :
    List String → String
  | [] => ""
  | s :: rest =>
      specSegContribution MAP prev (_clean_path s)
        ++ specTypeURISuffix MAP (some (_clean_path s)) rest

/-! ### Concrete catalogs and requests for the resolver claims -/

/-- A catalog entry of type `identity` whose URLs do not match host
`h:8774`. -/
def entryIdentity : CatalogEntry :=
  ⟨"identity", "keystone", ⟨none, some "http://other:5000/v2.0", none, none⟩⟩

/-- A catalog entry whose `publicURL` netloc is `h:8774`. -/
def entryNova : CatalogEntry :=
  ⟨"compute", "nova",
   ⟨some "nova-id", some "http://admin:8774/v2", none, some "http://h:8774/v2"⟩⟩

/-- Configuration whose default endpoint type is `identity`. -/
def mapDefaultIdentity : AuditMap :=
  ⟨[], [], [("compute", "service/compute")], some "identity"⟩

/-- A request addressed to host `h:8774` carrying the two-entry catalog
`[entryIdentity, entryNova]`. -/
def reqHostNova : Request :=
  ⟨"GET", "/v2/servers", "http://h:8774/v2", none,
   some (some [entryIdentity, entryNova])⟩

/-- First of two default-type entries; no URL matches host `h:1`. -/
def cEntry1 : CatalogEntry := ⟨"identity", "n1", ⟨none, none, none, none⟩⟩

/-- Second of two default-type entries; no URL matches host `h:1`. -/
def cEntry2 : CatalogEntry := ⟨"identity", "n2", ⟨none, none, none, none⟩⟩

/-- Configuration whose default endpoint type is `identity` and with no
other tables. -/
def mapDefaultOnly : AuditMap := ⟨[], [], [], some "identity"⟩

/-- A request addressed to host `h:1` carrying `[cEntry1, cEntry2]`. -/
def reqTwoDefaults : Request :=
  ⟨"GET", "/x", "http://h:1", none, some (some [cEntry1, cEntry2])⟩

/-- A request whose catalog header is present but fails `literal_eval`. -/
def reqBadCatalog : Request := ⟨"GET", "/x", "http://h:1", none, some none⟩

/-- A request with no catalog header at all (`KeyError`). -/
def reqNoCatalog : Request := ⟨"GET", "/x", "http://h:1", none, none⟩

/-! ### Theorems about `get_action` -/

/-- With no custom-action key matching the normalized last segment,
`get_action` is the default method dispatch of lines 140-166. -/
theorem get_action_no_custom (MAP : AuditMap) (req : Request)
    (h1 : dictGet MAP.custom_actions
            (url_ending req ++ "/" ++ strToLower req.method) = none)
    (h2 : dictGet MAP.custom_actions (url_ending req) = none) :
    get_action MAP req =
      (if req.method = "POST" then
        if url_ending req = "action" then
          match req.json with
          | some (k :: _) => ACTION_UPDATE ++ "/" ++ k
          | _ => ACTION_CREATE
        else if !dictHas MAP.path_kw (url_ending req) then ACTION_UPDATE
        else ACTION_CREATE
      else if req.method = "GET" then
        if dictHas MAP.path_kw (url_ending req) then ACTION_LIST
        else ACTION_READ
      else if req.method = "PUT" ∨ req.method = "PATCH" then ACTION_UPDATE
      else if req.method = "DELETE" then ACTION_DELETE
      else if req.method = "HEAD" then ACTION_READ
      else UNKNOWN) := by
  unfold get_action
  rw [h1, h2]

/-- C3: for a request whose normalized last path segment matches no
custom-actions key, the action is fixed by the method: POST (outside the
`action`-segment case) yields `create` on a path-keyword segment and
`update` otherwise; GET yields `list` on a path-keyword segment and
`read` otherwise; PUT and PATCH yield `update`; DELETE yields `delete`;
HEAD yields `read`; any other method yields `unknown`. -/
theorem C3_method_dispatch (MAP : AuditMap) (req : Request)
    (h1 : dictGet MAP.custom_actions
            (url_ending req ++ "/" ++ strToLower req.method) = none)
    (h2 : dictGet MAP.custom_actions (url_ending req) = none) :
    (req.method = "POST" → url_ending req ≠ "action" →
      get_action MAP req =
        if dictHas MAP.path_kw (url_ending req) then ACTION_CREATE
        else ACTION_UPDATE)
    ∧ (req.method = "GET" →
      get_action MAP req =
        if dictHas MAP.path_kw (url_ending req) then ACTION_LIST
        else ACTION_READ)
    ∧ ((req.method = "PUT" ∨ req.method = "PATCH") →
      get_action MAP req = ACTION_UPDATE)
    ∧ (req.method = "DELETE" → get_action MAP req = ACTION_DELETE)
    ∧ (req.method = "HEAD" → get_action MAP req = ACTION_READ)
    ∧ (req.method ∉ (["POST", "GET", "PUT", "PATCH", "DELETE", "HEAD"] :
          List String) →
      get_action MAP req = UNKNOWN) := by
  rw [get_action_no_custom MAP req h1 h2]
  refine ⟨?_, ?_, ?_, ?_, ?_, ?_⟩
  · intro hm ha
    rw [hm]
    simp only [if_pos rfl, if_neg ha]
    cases hk : dictHas MAP.path_kw (url_ending req) <;> simp [hk]
  · intro hm
    rw [hm]
    simp
  · rintro (hm | hm) <;> rw [hm] <;> simp
  · intro hm
    rw [hm]
    simp
  · intro hm
    rw [hm]
    simp
  · intro hm
    simp only [List.mem_cons, List.mem_singleton] at hm
    push_neg at hm
    obtain ⟨hp, hg, hpu, hpa, hd, hh, -⟩ := hm
    rw [if_neg hp, if_neg hg, if_neg (not_or.mpr ⟨hpu, hpa⟩), if_neg hd,
        if_neg hh]

/-- C3 witness: with an empty custom-actions table, `DELETE /x` classifies
as `delete` via the dispatch theorem. -/
theorem C3_method_dispatch_witness :
    get_action mapServersKw ⟨"DELETE", "/x", "", none, none⟩ = "delete" :=
  (C3_method_dispatch mapServersKw ⟨"DELETE", "/x", "", none, none⟩
    rfl rfl).2.2.2.1 rfl

/-- C4: on a POST whose normalized last segment is `action` and matches no
custom-actions key, a body parsing to a non-empty JSON object yields
`update/` followed by the object's first key, and an empty or unparseable
body yields `create` (the classifier is total, so it never raises). -/
theorem C4_post_action_body (MAP : AuditMap) (req : Request)
    (hm : req.method = "POST") (ha : url_ending req = "action")
    (h1 : dictGet MAP.custom_actions
            (url_ending req ++ "/" ++ strToLower req.method) = none)
    (h2 : dictGet MAP.custom_actions (url_ending req) = none) :
    get_action MAP req =
      match req.json with
      | some (k :: _) => ACTION_UPDATE ++ "/" ++ k
      | _ => ACTION_CREATE := by
  rw [get_action_no_custom MAP req h1 h2, hm, if_pos rfl, if_pos ha]

/-- C4 witness: `POST /servers/123/action` with a body parsing to
`{"reboot": ...}` yields `update/reboot`, and with an unparseable body
yields `create`. -/
theorem C4_post_action_body_witness :
    get_action mapServersKw
      ⟨"POST", "/servers/123/action", "", some ["reboot"], none⟩ =
        "update/reboot"
    ∧ get_action mapServersKw
      ⟨"POST", "/servers/123/action", "", none, none⟩ = "create" :=
  ⟨C4_post_action_body mapServersKw
      ⟨"POST", "/servers/123/action", "", some ["reboot"], none⟩
      rfl rfl rfl rfl,
   C4_post_action_body mapServersKw
      ⟨"POST", "/servers/123/action", "", none, none⟩
      rfl rfl rfl rfl⟩

/-- C8: a custom-actions entry keyed by the normalized last segment plus
`/` plus the lowercased method takes precedence over everything and
returns its value; failing that, an entry keyed by the bare last segment
is returned; both override the default method dispatch. -/
theorem C8_custom_actions_precedence (MAP : AuditMap) (req : Request) :
    (∀ a, dictGet MAP.custom_actions
            (url_ending req ++ "/" ++ strToLower req.method) = some a →
      get_action MAP req = a)
    ∧ (∀ a, dictGet MAP.custom_actions
              (url_ending req ++ "/" ++ strToLower req.method) = none →
        dictGet MAP.custom_actions (url_ending req) = some a →
      get_action MAP req = a) := by
  constructor
  · intro a h
    unfold get_action
    rw [h]
  · intro a h1 h2
    unfold get_action
    rw [h1, h2]

/-- C8 witness: the config entry `servers/post → boot` makes
`POST /servers` classify as `boot` instead of the default `create`. -/
theorem C8_custom_actions_precedence_witness :
    get_action mapBootCustom ⟨"POST", "/servers", "", none, none⟩ = "boot" :=
  (C8_custom_actions_precedence mapBootCustom
    ⟨"POST", "/servers", "", none, none⟩).1 "boot" (by decide)

/-- C10: method dispatch is case-sensitive — a method that is none of the
uppercase `POST`, `GET`, `PUT`, `PATCH`, `DELETE`, `HEAD`, on a request
whose normalized last segment matches no custom-actions key, classifies
as `unknown` (even though the custom-actions lookup lowercases it). -/
theorem C10_method_case_sensitive (MAP : AuditMap) (req : Request)
    (h1 : dictGet MAP.custom_actions
            (url_ending req ++ "/" ++ strToLower req.method) = none)
    (h2 : dictGet MAP.custom_actions (url_ending req) = none)
    (hm : req.method ∉ (["POST", "GET", "PUT", "PATCH", "DELETE", "HEAD"] :
        List String)) :
    get_action MAP req = UNKNOWN := by
  rw [get_action_no_custom MAP req h1 h2]
  simp only [List.mem_cons, List.mem_singleton] at hm
  push_neg at hm
  obtain ⟨hp, hg, hpu, hpa, hd, hh, -⟩ := hm
  rw [if_neg hp, if_neg hg, if_neg (not_or.mpr ⟨hpu, hpa⟩), if_neg hd,
      if_neg hh]

/-- C10 witness: lowercase method `get` classifies as `unknown`, not
`read`. -/
theorem C10_method_case_sensitive_witness :
    get_action mapServersKw ⟨"get", "/servers", "", none, none⟩ = "unknown" :=
  C10_method_case_sensitive mapServersKw
    ⟨"get", "/servers", "", none, none⟩ rfl rfl (by decide)

/-- `get_action` reads the request only through its normalized last
segment, its method and its body. -/
theorem get_action_congr (MAP : AuditMap) (r1 r2 : Request)
    (hm : r1.method = r2.method) (hj : r1.json = r2.json)
    (hu : url_ending r1 = url_ending r2) :
    get_action MAP r1 = get_action MAP r2 := by
  unfold get_action
  rw [hm, hj, hu]

/-- C9 counterexample: with `x` a path keyword, `GET /x//` (last segment
empty after stripping one slash) classifies as `read` while its
one-shorter path `/x/` classifies as `list`, so stripping the final `/`
changes the action. -/
theorem C9_counterexample :
    strEndsWith "/x//" "/" = true
    ∧ strDropRight "/x//" 1 = "/x/"
    ∧ get_action mapKwX ⟨"GET", "/x//", "", none, none⟩ = "read"
    ∧ get_action mapKwX ⟨"GET", "/x/", "", none, none⟩ = "list" := by
  decide

/-- C9 (amended): for every method and path `p` that ends with `/` but
whose remainder `p[:-1]` does not itself end with `/`, the classified
action for `p` equals the classified action for `p[:-1]`. -/
theorem C9_trailing_slash_invariant (MAP : AuditMap)
    (m p hu : String) (j : Option (List String))
    (ch : Option (Option (List CatalogEntry)))
    (h1 : strEndsWith p "/" = true)
    (h2 : strEndsWith (strDropRight p 1) "/" = false) :
    get_action MAP ⟨m, p, hu, j, ch⟩ =
      get_action MAP ⟨m, strDropRight p 1, hu, j, ch⟩ := by
  refine get_action_congr MAP ⟨m, p, hu, j, ch⟩
    ⟨m, strDropRight p 1, hu, j, ch⟩ rfl rfl ?_
  show _clean_path (afterLastSlash (normPath p)) =
    _clean_path (afterLastSlash (normPath (strDropRight p 1)))
  have e1 : normPath p = strDropRight p 1 := by simp [normPath, h1]
  have e2 : normPath (strDropRight p 1) = strDropRight p 1 := by
    simp [normPath, h2]
  rw [e1, e2]

/-- C9 witness: `GET /x/` and `GET /x` classify identically via the
amended invariant. -/
theorem C9_trailing_slash_invariant_witness :
    strEndsWith "/x/" "/" = true
    ∧ strEndsWith (strDropRight "/x/" 1) "/" = false
    ∧ get_action mapServersKw ⟨"GET", "/x/", "", none, none⟩ =
        get_action mapServersKw ⟨"GET", strDropRight "/x/" 1, "", none, none⟩ :=
  ⟨rfl, rfl,
   C9_trailing_slash_invariant mapServersKw "GET" "/x/" "" none none rfl rfl⟩

/-! ### Theorems about the target resolver -/

/-- The loop of `get_target_resource` stops at the first host-matching
entry, whatever `default_endpoint` it has recorded so far. -/
theorem findService_first_match (MAP : AuditMap) (rnl : String)
    (e : CatalogEntry) (rest : List CatalogEntry) :
    ∀ (pre : List CatalogEntry) (dflt : Option CatalogEntry),
      (∀ x ∈ pre, hostMatch rnl x = false) → hostMatch rnl e = true →
      findService MAP rnl (pre ++ e :: rest) dflt = _get_service_info MAP e
  | [], dflt, _, he => by
      simp [findService, he]
  | p :: ps, dflt, hpre, he => by
      have hp : hostMatch rnl p = false := hpre p (List.mem_cons_self p ps)
      have hps : ∀ x ∈ ps, hostMatch rnl x = false :=
        fun x hx => hpre x (List.mem_cons_of_mem p hx)
      rw [List.cons_append]
      by_cases hd : isDefaultType MAP p = true
      · simp only [findService, hp, hd]
        simp only [Bool.false_eq_true, if_false, if_true]
        exact findService_first_match MAP rnl e rest ps (some p) hps he
      · rw [Bool.not_eq_true] at hd
        simp only [findService, hp, hd]
        simp only [Bool.false_eq_true, if_false]
        exact findService_first_match MAP rnl e rest ps dflt hps he

/-- C1: the first catalog entry whose first endpoint's `adminURL` or
`publicURL` netloc equals the request host's netloc wins immediately —
the ServiceInfo is built from it, regardless of what precedes it in
iteration order (in particular entries of the default endpoint type). -/
theorem C1_first_host_match_wins (MAP : AuditMap) (req : Request)
    (pre : List CatalogEntry) (e : CatalogEntry) (rest : List CatalogEntry)
    (hcat : req.catalogHeader = some (some (pre ++ e :: rest)))
    (hpre : ∀ x ∈ pre, hostMatch (netloc req.host_url) x = false)
    (he : hostMatch (netloc req.host_url) e = true) :
    get_target_resource MAP req =
      .ok (_build_target MAP req (_get_service_info MAP e), false) := by
  simp only [get_target_resource, hcat]
  rw [findService_first_match MAP (netloc req.host_url) e rest pre none hpre he]

/-- C1 witness: the request host matches `entryNova`'s `publicURL` while
the earlier `entryIdentity` is of the configured default endpoint type;
the target is still built from `entryNova`. -/
theorem C1_first_host_match_wins_witness :
    isDefaultType mapDefaultIdentity entryIdentity = true
    ∧ get_target_resource mapDefaultIdentity reqHostNova =
        .ok (_build_target mapDefaultIdentity reqHostNova
               (_get_service_info mapDefaultIdentity entryNova), false) :=
  ⟨rfl,
   C1_first_host_match_wins mapDefaultIdentity reqHostNova
     [entryIdentity] entryNova [] rfl (by decide) (by decide)⟩

/-- `(a :: l).getLast?` is the last of `l`, falling back to `a`. -/
theorem getLast?_cons_getD {α : Type} (a : α) (l : List α) :
    (a :: l).getLast? = some (l.getLast?.getD a) := by
  induction l generalizing a with
  | nil => rfl
  | cons b bs ih => rw [List.getLast?_cons_cons, ih b, Option.getD_some]

/-- When no catalog entry host-matches, the loop of
`get_target_resource` ends on the last default-type entry (every match
overwrites `default_endpoint`), falling back to the carried default. -/
theorem findService_no_host_match (MAP : AuditMap) (rnl : String) :
    ∀ (catalog : List CatalogEntry) (dflt : Option CatalogEntry),
      (∀ x ∈ catalog, hostMatch rnl x = false) →
      findService MAP rnl catalog dflt =
        match (catalog.filter fun x => isDefaultType MAP x).getLast?, dflt with
        | some e, _ => _get_service_info MAP e
        | none, some d => _get_service_info MAP d
        | none, none => unknownService
  | [], dflt, _ => by cases dflt <;> rfl
  | e :: rest, dflt, h => by
      have he : hostMatch rnl e = false := h e (List.mem_cons_self e rest)
      have hrest : ∀ x ∈ rest, hostMatch rnl x = false :=
        fun x hx => h x (List.mem_cons_of_mem e hx)
      by_cases hd : isDefaultType MAP e = true
      · simp only [findService, he, Bool.false_eq_true, if_false, hd, if_true]
        rw [findService_no_host_match MAP rnl rest (some e) hrest]
        rw [List.filter_cons_of_pos hd, getLast?_cons_getD]
        cases hfr : (rest.filter fun x => isDefaultType MAP x).getLast? <;>
          simp [hfr]
      · rw [Bool.not_eq_true] at hd
        simp only [findService, he, Bool.false_eq_true, if_false, hd]
        rw [findService_no_host_match MAP rnl rest dflt hrest]
        rw [List.filter_cons_of_neg (by simp [hd])]

/-- C2 (amended): when no catalog entry matches the request host and at
least one entry has the configured default endpoint type, the
ServiceInfo is built from the LAST such entry in catalog iteration order
(each candidate overwrites the previous one while scanning). -/
theorem C2_fallback_last_default (MAP : AuditMap) (req : Request)
    (catalog : List CatalogEntry) (e : CatalogEntry)
    (hcat : req.catalogHeader = some (some catalog))
    (hnm : ∀ x ∈ catalog, hostMatch (netloc req.host_url) x = false)
    (hlast : (catalog.filter fun x => isDefaultType MAP x).getLast? = some e) :
    get_target_resource MAP req =
      .ok (_build_target MAP req (_get_service_info MAP e), false) := by
  simp only [get_target_resource, hcat]
  rw [findService_no_host_match MAP (netloc req.host_url) catalog none hnm,
      hlast]

/-- C2 counterexample: two default-type entries, no host match — the
resolver builds the target from the second (last) entry `cEntry2`, and
that target differs from the one the first entry would give, refuting
"the first such entry". -/
theorem C2_counterexample :
    isDefaultType mapDefaultOnly cEntry1 = true
    ∧ isDefaultType mapDefaultOnly cEntry2 = true
    ∧ get_target_resource mapDefaultOnly reqTwoDefaults =
        .ok (_build_target mapDefaultOnly reqTwoDefaults
               (_get_service_info mapDefaultOnly cEntry2), false)
    ∧ _build_target mapDefaultOnly reqTwoDefaults
        (_get_service_info mapDefaultOnly cEntry2) ≠
      _build_target mapDefaultOnly reqTwoDefaults
        (_get_service_info mapDefaultOnly cEntry1) := by
  refine ⟨rfl, rfl, rfl, ?_⟩
  decide

/-- C2 witness: the amended fallback theorem applied to the two-entry
catalog of `reqTwoDefaults` selects `cEntry2`. -/
theorem C2_fallback_last_default_witness :
    get_target_resource mapDefaultOnly reqTwoDefaults =
      .ok (_build_target mapDefaultOnly reqTwoDefaults
             (_get_service_info mapDefaultOnly cEntry2), false) :=
  C2_fallback_last_default mapDefaultOnly reqTwoDefaults
    [cEntry1, cEntry2] cEntry2 rfl (by decide) (by decide)

/-- C6 counterexample: a catalog header that is present but unparseable is
not tolerated — only `KeyError` is caught, so `ast.literal_eval`'s
exception propagates and no target is returned. -/
theorem C6_counterexample :
    reqBadCatalog.catalogHeader = some none
    ∧ get_target_resource mapServersKw reqBadCatalog = .error ()
    ∧ ∀ t w, get_target_resource mapServersKw reqBadCatalog ≠ .ok (t, w) :=
  ⟨rfl, rfl, fun _ _ h => nomatch h⟩

/-- C6 (amended): when the service catalog header is absent, resolution
does not fail: the warning is logged and the returned target has
`typeURI`, `id` and `name` all `unknown` and an empty address list.  (A
present but unparseable header instead raises.) -/
theorem C6_missing_catalog_unknown_target (MAP : AuditMap) (req : Request)
    (h : req.catalogHeader = none) :
    get_target_resource MAP req =
      .ok (⟨UNKNOWN, UNKNOWN, UNKNOWN, []⟩, true) := by
  simp only [get_target_resource, h]
  rfl

/-- C6 witness: the amended theorem applied to a concrete
catalog-header-less request. -/
theorem C6_missing_catalog_unknown_target_witness :
    get_target_resource mapServersKw reqNoCatalog =
      .ok (⟨"unknown", "unknown", "unknown", []⟩, true) :=
  C6_missing_catalog_unknown_target mapServersKw reqNoCatalog rfl

/-! ### Theorems about the typeURI construction -/

/-- The imperative accumulation of `_build_typeURI` computes the
concatenation of the spec's per-segment contributions. -/
theorem typeURIFold_eq_spec (MAP : AuditMap) :
    ∀ (segs : List String) (prev : Option String) (acc : String),
      typeURIFold MAP segs prev acc = acc ++ specTypeURISuffix MAP prev segs
  | [], prev, acc => by cases prev <;> simp [typeURIFold, specTypeURISuffix]
  | s :: rest, prev, acc => by
      simp only [typeURIFold, specTypeURISuffix]
      rw [typeURIFold_eq_spec MAP rest (some (_clean_path s)) _]
      unfold specSegContribution
      cases hk : dictHas MAP.path_kw (_clean_path s) with
      | true => simp [String.append_assoc]
      | false =>
          cases prev with
          | none => simp
          | some p =>
              cases hp : dictHas MAP.path_kw p <;>
                simp [hp, String.append_assoc]

/-- C5: the built target's typeURI is the literal `unknown` when the
service type is the unknown sentinel, and otherwise the service type
followed, in path order, by `/<segment>` for each cleaned `/`-split
segment that is a path keyword, by `/<pathKeywords[previous]>` for each
segment whose previous cleaned segment is a path keyword, and by nothing
otherwise. -/
theorem C5_typeURI_composition (MAP : AuditMap) (req : Request)
    (service : Service) :
    (_build_target MAP req service).typeURI =
      if service.type = UNKNOWN then UNKNOWN
      else service.type ++ specTypeURISuffix MAP none (splitChar req.path '/') := by
  by_cases h : service.type = UNKNOWN
  · simp [_build_target, h]
  · simp only [_build_target, _build_typeURI, if_neg h, if_pos h,
      ite_not]
    rw [typeURIFold_eq_spec MAP (splitChar req.path '/') none ""]
    simp

/-! ### Theorems about configuration loading -/

/-- C7 counterexample: a path to a nonexistent file makes `__init__`
raise — `open` fails with an `IOError` that no handler catches — instead
of yielding the all-empty configuration. -/
theorem C7_counterexample :
    auditApiInit (some FileRead.missing) = .error LoadError.ioError
    ∧ auditApiInit (some FileRead.missing) ≠
        .ok (⟨[], [], [], none⟩ : AuditMap) :=
  ⟨rfl, fun h => nomatch h⟩

/-- C7 (amended): loading with no configured path and loading an existing
empty file both yield the identical all-empty configuration (all three
tables empty, no default endpoint type); a nonexistent path instead
raises the uncaught `open` error. -/
theorem C7_empty_config_round_trip :
    auditApiInit none = .ok (⟨[], [], [], none⟩ : AuditMap)
    ∧ auditApiInit (some (FileRead.parsed emptyIniConf)) =
        .ok (⟨[], [], [], none⟩ : AuditMap)
    ∧ auditApiInit none = auditApiInit (some (FileRead.parsed emptyIniConf)) :=
  ⟨rfl, rfl, rfl⟩

end KeystoneAudit
